import Mathlib

/-!
Shallow embedding of the Avatar Productivity backend (src/backend/server.py).

The three MongoDB collections are modelled as lists kept in insertion order
(`insert_one` appends, `find_one` returns the first match, `update_one` and
`delete_one` affect the first match only).  Python integers are `Int` and
Python floor division `//` is `Int.fdiv`.  Timestamps (`datetime.now()`) and
fresh UUIDs are passed in as explicit parameters.  The external LLM call in
`get_ai_coaching_message` is modelled by its outcome, an `Except Unit String`
(`.ok text` for a successful response, `.error ()` for any raised exception),
and the `EMERGENT_LLM_KEY` environment variable by an `Option String`.
-/

namespace Avtariclife

/-- The `User` pydantic model (server.py lines 36-43). -/
structure User where
  id : String
  name : String
  email : String
  xp : Int
  level : Int
  avatar_mood : String
  created_at : Nat
deriving DecidableEq, Repr

/-- The `Task` pydantic model (server.py lines 45-53). -/
structure Task where
  id : String
  user_id : String
  title : String
  description : Option String
  completed : Bool
  xp_reward : Int
  created_at : Nat
  completed_at : Option Nat
deriving DecidableEq, Repr

/-- The `AvatarState` pydantic model (server.py lines 55-61). -/
structure AvatarState where
  id : String
  user_id : String
  mood : String
  animation : String
  message : Option String
  timestamp : Nat
deriving DecidableEq, Repr

/-- The `TaskCreate` request model (server.py lines 63-66). -/
structure TaskCreate where
  title : String
  description : Option String
  xp_reward : Int
deriving DecidableEq, Repr

/-- The three MongoDB collections, in insertion (natural) order. -/
structure DB where
  users : List User
  tasks : List Task
  avatar_states : List AvatarState
deriving DecidableEq, Repr

/-- Mongo `update_one`: apply `f` to the first element satisfying `p`. -/
def updateOne (p : α → Bool) (f : α → α) : List α → List α
  | [] => []
  | a :: rest => if p a then f a :: rest else a :: updateOne p f rest

/-- Mongo `delete_one`: remove the first element satisfying `p`. -/
def deleteOne (p : α → Bool) : List α → List α
  | [] => []
  | a :: rest => if p a then rest else a :: deleteOne p rest

/-- The apostrophe character, used inside several message templates. -/
def apos : String := (Char.ofNat 39).toString

/-- `get_ai_coaching_message` (server.py lines 72-92).  `emergent_key` is the
value of `EMERGENT_LLM_KEY` (absent or set); a missing or empty key is falsy
in Python, giving the static early-return message.  `callResult` is the
outcome of the `LlmChat` call: `.ok text` when the remote call returns
`text`, `.error ()` when anything in the `try` block raises. -/
def get_ai_coaching_message (emergent_key : Option String)
    (callResult : Except Unit String)
    (user_name task_title : String) (user_level xp_gained : Int) : String :=
  if emergent_key.getD "" == "" then
    "Great job completing that task! Keep up the excellent work!"
  else
    match callResult with
    | .ok response => response
    | .error _ =>
        "Amazing work on " ++ apos ++ task_title ++ apos ++ "! You" ++ apos ++
          "re crushing it at level " ++ toString user_level ++ "! 🎉"

/-- `create_user` (server.py lines 99-103): inserts the posted `User`
document verbatim and echoes it back. -/
def create_user (user : User) (db : DB) : DB × User :=
  ({ db with users := db.users ++ [user] }, user)

/-- `create_task` (server.py lines 112-122): builds a `Task` from the posted
`TaskCreate` and the `user_id` query parameter, with a fresh id and the
current time, and inserts it. -/
def create_task (task_create : TaskCreate) (user_id : String)
    (fresh_id : String) (now : Nat) (db : DB) : DB × Task :=
  let task : Task :=
    { id := fresh_id, user_id := user_id, title := task_create.title,
      description := task_create.description, completed := false,
      xp_reward := task_create.xp_reward, created_at := now,
      completed_at := none }
  ({ db with tasks := db.tasks ++ [task] }, task)

/-- The errors `complete_task` can raise, with their HTTP status codes. -/
inductive CompleteError where
  | taskNotFound
  | alreadyCompleted
  | userNotFound
deriving DecidableEq, Repr

/-- HTTP status code of each `HTTPException` in `complete_task`. -/
def statusCode : CompleteError → Nat
  | .taskNotFound => 404
  | .alreadyCompleted => 400
  | .userNotFound => 404

/-- The JSON object returned by a successful `complete_task`
(server.py lines 188-196). -/
structure CompletionResult where
  message : String
  xp_gained : Int
  new_xp : Int
  new_level : Int
  level_up : Bool
  avatar_mood : String
  ai_message : String
deriving DecidableEq, Repr

/-- `complete_task` (server.py lines 129-196), step for step:
find the task (404 if absent), reject if already completed (400), mark the
task completed, find the owning user (404 if absent), compute the new
xp/level/mood, update the user, obtain the coaching message, append an
avatar state, and return the result.  The updated database is returned in
every case, so that the state left behind by an error is visible. -/
def complete_task (emergent_key : Option String)
    (callResult : Except Unit String) (now : Nat) (state_id : String)
    (task_id : String) (db : DB) :
    Except CompleteError CompletionResult × DB :=
  match db.tasks.find? (fun t => t.id == task_id) with
  | none => (.error .taskNotFound, db)
  | some task =>
    if task.completed then
      (.error .alreadyCompleted, db)
    else
      let db1 : DB := { db with
        tasks := updateOne (fun t => t.id == task_id)
          (fun t => { t with completed := true, completed_at := some now })
          db.tasks }
      match db1.users.find? (fun u => u.id == task.user_id) with
      | none => (.error .userNotFound, db1)
      | some user =>
        let new_xp := user.xp + task.xp_reward
        let new_level := max 1 (Int.fdiv new_xp 100)
        let new_mood := if user.level < new_level then "excited" else "happy"
        let db2 : DB := { db1 with
          users := updateOne (fun u => u.id == task.user_id)
            (fun u => { u with xp := new_xp, level := new_level,
                               avatar_mood := new_mood }) db1.users }
        let ai_message := get_ai_coaching_message emergent_key callResult
          user.name task.title new_level task.xp_reward
        let st : AvatarState :=
          { id := state_id, user_id := task.user_id, mood := new_mood,
            animation := if user.level < new_level then "celebrate"
                         else "happy_bounce",
            message := some ai_message, timestamp := now }
        let db3 : DB := { db2 with
          avatar_states := db2.avatar_states ++ [st] }
        (.ok { message := "Task completed successfully!",
               xp_gained := task.xp_reward, new_xp := new_xp,
               new_level := new_level,
               level_up := decide (user.level < new_level),
               avatar_mood := new_mood, ai_message := ai_message }, db3)

/-- The JSON object returned by `get_avatar_state`. -/
structure AvatarStateView where
  mood : String
  animation : String
  message : Option String
  xp : Int
  level : Int
deriving DecidableEq, Repr

/-- Mongo `find_one` with `sort=[("timestamp", -1)]`: the document with the
greatest timestamp, the earliest inserted one on ties. -/
def latestState : List AvatarState → Option AvatarState
  | [] => none
  | s :: rest =>
    match latestState rest with
    | none => some s
    | some t => if t.timestamp > s.timestamp then some t else some s

/-- `get_avatar_state` (server.py lines 198-225): a pure read returning
either the synthesized default view or the fields of the latest stored
avatar state, with xp and level always taken from the current user record. -/
def get_avatar_state (user_id : String) (db : DB) :
    Except Unit AvatarStateView :=
  match db.users.find? (fun u => u.id == user_id) with
  | none => .error ()
  | some user =>
    match latestState
        (db.avatar_states.filter (fun s => s.user_id == user_id)) with
    | none =>
      .ok { mood := user.avatar_mood, animation := "idle",
            message := some ("Hey " ++ user.name ++ "! I" ++ apos ++
              "m ready to celebrate your productivity! 🎯"),
            xp := user.xp, level := user.level }
    | some latest =>
      .ok { mood := latest.mood, animation := latest.animation,
            message := latest.message, xp := user.xp, level := user.level }

/-- `delete_task` (server.py lines 227-232): delete the first task with the
given id, 404 when none matched. -/
def delete_task (task_id : String) (db : DB) : Except Unit String × DB :=
  if db.tasks.any (fun t => t.id == task_id) then
    (.ok "Task deleted successfully",
     { db with tasks := deleteOne (fun t => t.id == task_id) db.tasks })
  else
    (.error (), db)

/-- The User invariant claimed by the spec:
`level == max(1, floor(xp / 100))`. -/
def UserInv (u : User) : Prop := u.level = max 1 (Int.fdiv u.xp 100)

instance (u : User) : Decidable (UserInv u) := by
  unfold UserInv; infer_instance

/-- `sub` occurs as a contiguous substring of `s`. -/
def containsStr (s sub : String) : Prop := sub.toList <:+: s.toList

instance (s sub : String) : Decidable (containsStr s sub) :=
  List.decidableInfix sub.toList s.toList

/-! ## Helper lemmas about the store operations -/

theorem updateOne_map (p : α → Bool) (f : α → α) (g : α → β)
    (h : ∀ a, g (f a) = g a) :
    ∀ l : List α, (updateOne p f l).map g = l.map g
  | [] => rfl
  | a :: rest => by
    unfold updateOne
    by_cases hp : p a = true
    · simp [hp, h a]
    · simp [hp, updateOne_map p f g h rest]

theorem find?_updateOne (p : α → Bool) (f : α → α)
    (h : ∀ a, p (f a) = p a) :
    ∀ l : List α, (updateOne p f l).find? p = (l.find? p).map f
  | [] => rfl
  | a :: rest => by
    unfold updateOne
    by_cases hp : p a = true
    · rw [if_pos hp, List.find?_cons_of_pos _ ((h a).trans hp),
        List.find?_cons_of_pos _ hp]
      rfl
    · rw [if_neg hp, List.find?_cons_of_neg _ hp, List.find?_cons_of_neg _ hp,
        find?_updateOne p f h rest]

theorem mem_updateOne (p : α → Bool) (f : α → α) :
    ∀ l : List α, ∀ a ∈ updateOne p f l, a ∈ l ∨ ∃ b, b ∈ l ∧ a = f b
  | [], a, ha => absurd ha (List.not_mem_nil a)
  | b :: rest, a, ha => by
    unfold updateOne at ha
    by_cases hp : p b = true
    · rw [if_pos hp] at ha
      rcases List.mem_cons.mp ha with h | h
      · exact Or.inr ⟨b, List.mem_cons_self b rest, h⟩
      · exact Or.inl (List.mem_cons_of_mem _ h)
    · rw [if_neg hp] at ha
      rcases List.mem_cons.mp ha with h | h
      · exact Or.inl (h ▸ List.mem_cons_self b rest)
      · rcases mem_updateOne p f rest a h with h1 | ⟨c, hc, hfc⟩
        · exact Or.inl (List.mem_cons_of_mem _ h1)
        · exact Or.inr ⟨c, List.mem_cons_of_mem _ hc, hfc⟩

theorem deleteOne_subset (p : α → Bool) :
    ∀ l : List α, ∀ a ∈ deleteOne p l, a ∈ l
  | [], a, ha => absurd ha (List.not_mem_nil a)
  | b :: rest, a, ha => by
    unfold deleteOne at ha
    by_cases hp : p b = true
    · rw [if_pos hp] at ha
      exact List.mem_cons_of_mem _ ha
    · rw [if_neg hp] at ha
      rcases List.mem_cons.mp ha with h | h
      · exact h ▸ List.mem_cons_self b rest
      · exact List.mem_cons_of_mem _ (deleteOne_subset p rest a h)

theorem latestState_mem :
    ∀ {l : List AvatarState} {s : AvatarState}, latestState l = some s → s ∈ l
  | [], _, h => by simp [latestState] at h
  | a :: rest, s, h => by
    cases hr : latestState rest with
    | none =>
      simp only [latestState, hr] at h
      injection h with h
      exact h ▸ List.mem_cons_self a rest
    | some t =>
      simp only [latestState, hr] at h
      by_cases ht : t.timestamp > a.timestamp
      · rw [if_pos ht] at h
        injection h with h
        exact List.mem_cons_of_mem _ (h ▸ latestState_mem hr)
      · rw [if_neg ht] at h
        injection h with h
        exact h ▸ List.mem_cons_self a rest

theorem latestState_cons_isSome (a : AvatarState) (l : List AvatarState) :
    (latestState (a :: l)).isSome = true := by
  simp only [latestState]
  cases latestState l with
  | none => rfl
  | some t =>
    show (if t.timestamp > a.timestamp then some t else some a).isSome = true
    by_cases ht : t.timestamp > a.timestamp
    · rw [if_pos ht]
      rfl
    · rw [if_neg ht]
      rfl

theorem latestState_eq_of_strictmax {s : AvatarState} :
    ∀ {l : List AvatarState}, s ∈ l →
      (∀ t ∈ l, t ≠ s → t.timestamp < s.timestamp) → latestState l = some s := by
  intro l
  induction l with
  | nil => exact fun hs _ => absurd hs (List.not_mem_nil s)
  | cons a rest ih =>
    intro hs hmax
    cases hr : latestState rest with
    | none =>
      cases rest with
      | nil =>
        rcases List.mem_cons.mp hs with h | h
        · simp only [latestState, h]
        · exact absurd h (List.not_mem_nil s)
      | cons b bs =>
        exfalso
        have hsome := latestState_cons_isSome b bs
        rw [hr] at hsome
        exact Bool.noConfusion hsome
    | some t =>
      have htmem : t ∈ rest := latestState_mem hr
      simp only [latestState, hr]
      by_cases has : a = s
      · subst has
        by_cases hts : t = a
        · rw [hts, if_neg (lt_irrefl a.timestamp)]
        · have hlt := hmax t (List.mem_cons_of_mem _ htmem) hts
          rw [if_neg (asymm hlt)]
      · have hsrest : s ∈ rest := by
          rcases List.mem_cons.mp hs with h | h
          · exact absurd h.symm has
          · exact h
        have hr' := ih hsrest
          (fun t ht hne => hmax t (List.mem_cons_of_mem _ ht) hne)
        rw [hr] at hr'
        injection hr' with hts
        subst hts
        rw [if_pos (hmax a (List.mem_cons_self a rest) has)]

/-! ## Branch lemmas for `complete_task` -/

theorem complete_task_taskNotFound (key : Option String)
    (res : Except Unit String) (now : Nat) (sid tid : String) (db : DB)
    (h : db.tasks.find? (fun t => t.id == tid) = none) :
    complete_task key res now sid tid db = (.error .taskNotFound, db) := by
  simp [complete_task, h]

theorem complete_task_alreadyCompleted (key : Option String)
    (res : Except Unit String) (now : Nat) (sid tid : String) (db : DB)
    (task : Task)
    (h : db.tasks.find? (fun t => t.id == tid) = some task)
    (hc : task.completed = true) :
    complete_task key res now sid tid db = (.error .alreadyCompleted, db) := by
  simp [complete_task, h, hc]

theorem complete_task_userNotFound (key : Option String)
    (res : Except Unit String) (now : Nat) (sid tid : String) (db : DB)
    (task : Task)
    (h : db.tasks.find? (fun t => t.id == tid) = some task)
    (hc : task.completed = false)
    (hu : db.users.find? (fun u => u.id == task.user_id) = none) :
    complete_task key res now sid tid db = (.error .userNotFound,
      { db with
        tasks := updateOne (fun t => t.id == tid)
          (fun t => { t with completed := true, completed_at := some now })
          db.tasks }) := by
  simp [complete_task, h, hc, hu]

theorem complete_task_ok (key : Option String)
    (res : Except Unit String) (now : Nat) (sid tid : String) (db : DB)
    (task : Task) (user : User)
    (h : db.tasks.find? (fun t => t.id == tid) = some task)
    (hc : task.completed = false)
    (hu : db.users.find? (fun u => u.id == task.user_id) = some user) :
    complete_task key res now sid tid db =
      (.ok { message := "Task completed successfully!",
             xp_gained := task.xp_reward,
             new_xp := user.xp + task.xp_reward,
             new_level := max 1 (Int.fdiv (user.xp + task.xp_reward) 100),
             level_up := decide (user.level <
               max 1 (Int.fdiv (user.xp + task.xp_reward) 100)),
             avatar_mood := if user.level <
                 max 1 (Int.fdiv (user.xp + task.xp_reward) 100)
               then "excited" else "happy",
             ai_message := get_ai_coaching_message key res user.name task.title
               (max 1 (Int.fdiv (user.xp + task.xp_reward) 100))
               task.xp_reward },
       { users := updateOne (fun u => u.id == task.user_id)
           (fun u => { u with
             xp := user.xp + task.xp_reward,
             level := max 1 (Int.fdiv (user.xp + task.xp_reward) 100),
             avatar_mood := if user.level <
                 max 1 (Int.fdiv (user.xp + task.xp_reward) 100)
               then "excited" else "happy" }) db.users,
         tasks := updateOne (fun t => t.id == tid)
           (fun t => { t with completed := true, completed_at := some now })
           db.tasks,
         avatar_states := db.avatar_states ++
           [{ id := sid, user_id := task.user_id,
              mood := if user.level <
                  max 1 (Int.fdiv (user.xp + task.xp_reward) 100)
                then "excited" else "happy",
              animation := if user.level <
                  max 1 (Int.fdiv (user.xp + task.xp_reward) 100)
                then "celebrate" else "happy_bounce",
              message := some (get_ai_coaching_message key res user.name
                task.title (max 1 (Int.fdiv (user.xp + task.xp_reward) 100))
                task.xp_reward),
              timestamp := now }] }) := by
  simp [complete_task, h, hc, hu]

theorem complete_task_tasks_shape (key : Option String)
    (res : Except Unit String) (now : Nat) (sid tid : String) (db : DB) :
    (complete_task key res now sid tid db).2.tasks = db.tasks ∨
    (complete_task key res now sid tid db).2.tasks =
      updateOne (fun t => t.id == tid)
        (fun t => { t with completed := true, completed_at := some now })
        db.tasks := by
  cases h : db.tasks.find? (fun t => t.id == tid) with
  | none =>
    rw [complete_task_taskNotFound key res now sid tid db h]
    exact Or.inl rfl
  | some task =>
    cases hc : task.completed with
    | true =>
      rw [complete_task_alreadyCompleted key res now sid tid db task h hc]
      exact Or.inl rfl
    | false =>
      cases hu : db.users.find? (fun u => u.id == task.user_id) with
      | none =>
        rw [complete_task_userNotFound key res now sid tid db task h hc hu]
        exact Or.inr rfl
      | some user =>
        rw [complete_task_ok key res now sid tid db task user h hc hu]
        exact Or.inr rfl

theorem complete_task_users_shape (key : Option String)
    (res : Except Unit String) (now : Nat) (sid tid : String) (db : DB) :
    (complete_task key res now sid tid db).2.users = db.users ∨
    ∃ uid X M, (complete_task key res now sid tid db).2.users =
      updateOne (fun u => u.id == uid)
        (fun u => { u with xp := X, level := max 1 (Int.fdiv X 100),
                           avatar_mood := M }) db.users := by
  cases h : db.tasks.find? (fun t => t.id == tid) with
  | none =>
    rw [complete_task_taskNotFound key res now sid tid db h]
    exact Or.inl rfl
  | some task =>
    cases hc : task.completed with
    | true =>
      rw [complete_task_alreadyCompleted key res now sid tid db task h hc]
      exact Or.inl rfl
    | false =>
      cases hu : db.users.find? (fun u => u.id == task.user_id) with
      | none =>
        rw [complete_task_userNotFound key res now sid tid db task h hc hu]
        exact Or.inl rfl
      | some user =>
        rw [complete_task_ok key res now sid tid db task user h hc hu]
        exact Or.inr ⟨task.user_id, user.xp + task.xp_reward,
          (if user.level < max 1 (Int.fdiv (user.xp + task.xp_reward) 100)
            then "excited" else "happy"), rfl⟩

/-! ## Claims -/

/-- C1, counterexample: `complete_task` marks the task completed before it
looks up the owning user, so a completion on a task whose owner is missing
fails with `NotFound(user)` yet leaves the task completed — the claim that
the task is still not completed after this failure is false. -/
theorem C1_counterexample :
    (complete_task none (Except.error ()) 5 "s1" "t1"
        ⟨[], [⟨"t1", "u1", "Write", none, false, 10, 0, none⟩], []⟩).1
      = .error .userNotFound ∧
    ((complete_task none (Except.error ()) 5 "s1" "t1"
        ⟨[], [⟨"t1", "u1", "Write", none, false, 10, 0, none⟩], []⟩).2.tasks.find?
        (fun t => t.id == "t1")).map Task.completed = some true :=
  ⟨rfl, rfl⟩

/-- C1 (amended): a `completeTask` that fails with `NotFound(task)` or
`AlreadyCompleted` changes no state at all; a failure with `NotFound(user)`
leaves the user store and the avatar-state log untouched but has already
marked the task completed (with `completedAt` set). -/
theorem C1_error_state (key : Option String) (res : Except Unit String)
    (now : Nat) (sid tid : String) (db : DB) (e : CompleteError)
    (h : (complete_task key res now sid tid db).1 = .error e) :
    ((e = .taskNotFound ∨ e = .alreadyCompleted) →
      (complete_task key res now sid tid db).2 = db) ∧
    (e = .userNotFound →
      (complete_task key res now sid tid db).2.users = db.users ∧
      (complete_task key res now sid tid db).2.avatar_states =
        db.avatar_states ∧
      (complete_task key res now sid tid db).2.tasks =
        updateOne (fun t => t.id == tid)
          (fun t => { t with completed := true, completed_at := some now })
          db.tasks) := by
  cases hf : db.tasks.find? (fun t => t.id == tid) with
  | none =>
    rw [complete_task_taskNotFound key res now sid tid db hf] at h ⊢
    simp only [Except.error.injEq] at h
    subst h
    exact ⟨fun _ => rfl, fun he => nomatch he⟩
  | some task =>
    cases hc : task.completed with
    | true =>
      rw [complete_task_alreadyCompleted key res now sid tid db task hf hc]
        at h ⊢
      simp only [Except.error.injEq] at h
      subst h
      exact ⟨fun _ => rfl, fun he => nomatch he⟩
    | false =>
      cases hu : db.users.find? (fun u => u.id == task.user_id) with
      | none =>
        rw [complete_task_userNotFound key res now sid tid db task hf hc hu]
          at h ⊢
        simp only [Except.error.injEq] at h
        subst h
        refine ⟨fun he => ?_, fun _ => ⟨rfl, rfl, rfl⟩⟩
        rcases he with he | he <;> exact nomatch he
      | some user =>
        rw [complete_task_ok key res now sid tid db task user hf hc hu] at h
        exact nomatch h

/-- Witness for C1: on a store holding one task owned by the absent user
`u1`, the failed completion left the user store and avatar log empty, and
the task record marked completed. -/
theorem C1_error_state_witness :
    (complete_task none (Except.error ()) 5 "s1" "t1"
        ⟨[], [⟨"t1", "u1", "Write", none, false, 10, 0, none⟩], []⟩).2.users
      = [] ∧
    (complete_task none (Except.error ()) 5 "s1" "t1"
        ⟨[], [⟨"t1", "u1", "Write", none, false, 10, 0, none⟩], []⟩).2.tasks
      = updateOne (fun t => t.id == "t1")
          (fun t => { t with completed := true, completed_at := some 5 })
          [⟨"t1", "u1", "Write", none, false, 10, 0, none⟩] :=
  have h := (C1_error_state none (Except.error ()) 5 "s1" "t1"
    ⟨[], [⟨"t1", "u1", "Write", none, false, 10, 0, none⟩], []⟩
    .userNotFound rfl).2 rfl
  ⟨h.1, h.2.2⟩

/-- C2: completing an existing, not-yet-completed task returns success with
`xp_gained` equal to the task's `xp_reward` and stores `user.xp + xp_reward`
as the owner's new XP; a second `complete_task` on the same task id fails
with `AlreadyCompleted` (HTTP 400) and leaves the whole store — in
particular the user's XP — unchanged. -/
theorem C2_award_once_then_already_completed (key key2 : Option String)
    (res res2 : Except Unit String) (now now2 : Nat) (sid sid2 tid : String)
    (db : DB) (task : Task) (user : User)
    (h : db.tasks.find? (fun t => t.id == tid) = some task)
    (hc : task.completed = false)
    (hu : db.users.find? (fun u => u.id == task.user_id) = some user) :
    (∃ r, (complete_task key res now sid tid db).1 = .ok r ∧
      r.xp_gained = task.xp_reward) ∧
    ((complete_task key res now sid tid db).2.users.find?
        (fun u => u.id == task.user_id)).map User.xp
      = some (user.xp + task.xp_reward) ∧
    (complete_task key2 res2 now2 sid2 tid
        (complete_task key res now sid tid db).2).1
      = .error .alreadyCompleted ∧
    statusCode .alreadyCompleted = 400 ∧
    (complete_task key2 res2 now2 sid2 tid
        (complete_task key res now sid tid db).2).2
      = (complete_task key res now sid tid db).2 := by
  have hok := complete_task_ok key res now sid tid db task user h hc hu
  have hfind2 : (complete_task key res now sid tid db).2.tasks.find?
      (fun t => t.id == tid)
      = some { task with completed := true, completed_at := some now } := by
    rw [hok]
    show (updateOne (fun t => t.id == tid)
        (fun t => { t with completed := true, completed_at := some now })
        db.tasks).find? (fun t => t.id == tid) = _
    rw [find?_updateOne (fun t => t.id == tid)
      (fun t => { t with completed := true, completed_at := some now })
      (fun a => rfl) db.tasks, h]
    rfl
  have halready := complete_task_alreadyCompleted key2 res2 now2 sid2 tid
    (complete_task key res now sid tid db).2
    { task with completed := true, completed_at := some now } hfind2 rfl
  refine ⟨⟨_, by rw [hok], rfl⟩, ?_, by rw [halready], rfl, by rw [halready]⟩
  rw [hok]
  show ((updateOne (fun u => u.id == task.user_id)
      (fun u => { u with
                  xp := user.xp + task.xp_reward,
                  level := max 1 (Int.fdiv (user.xp + task.xp_reward) 100),
                  avatar_mood := if user.level <
                      max 1 (Int.fdiv (user.xp + task.xp_reward) 100)
                    then "excited" else "happy" }) db.users).find?
    (fun u => u.id == task.user_id)).map User.xp = _
  rw [find?_updateOne (fun u => u.id == task.user_id)
    (fun u => { u with
                xp := user.xp + task.xp_reward,
                level := max 1 (Int.fdiv (user.xp + task.xp_reward) 100),
                avatar_mood := if user.level <
                    max 1 (Int.fdiv (user.xp + task.xp_reward) 100)
                  then "excited" else "happy" })
    (fun a => rfl) db.users, hu]
  rfl

/-- Witness for C2 on a concrete store: the owner's XP goes from 50 to 60,
and the duplicate completion is rejected with `AlreadyCompleted`. -/
theorem C2_award_once_witness :
    ((complete_task none (Except.error ()) 1 "s1" "t1"
        ⟨[⟨"u1", "Ann", "ann@x", 50, 1, "neutral", 0⟩],
         [⟨"t1", "u1", "Run", none, false, 10, 0, none⟩], []⟩).2.users.find?
        (fun u => u.id == "u1")).map User.xp = some 60 ∧
    (complete_task none (Except.error ()) 2 "s2" "t1"
        (complete_task none (Except.error ()) 1 "s1" "t1"
          ⟨[⟨"u1", "Ann", "ann@x", 50, 1, "neutral", 0⟩],
           [⟨"t1", "u1", "Run", none, false, 10, 0, none⟩], []⟩).2).1
      = .error .alreadyCompleted :=
  have h := C2_award_once_then_already_completed none none
    (Except.error ()) (Except.error ()) 1 2 "s1" "s2" "t1"
    ⟨[⟨"u1", "Ann", "ann@x", 50, 1, "neutral", 0⟩],
     [⟨"t1", "u1", "Run", none, false, 10, 0, none⟩], []⟩
    ⟨"t1", "u1", "Run", none, false, 10, 0, none⟩
    ⟨"u1", "Ann", "ann@x", 50, 1, "neutral", 0⟩ rfl rfl rfl
  ⟨h.2.1, h.2.2.1⟩

/-- C3, counterexample: `create_user` inserts the posted document verbatim,
so a request carrying `xp = 500, level = 1` stores a user violating
`level == max(1, floor(xp / 100))` — the invariant does not hold after
every mutation. -/
theorem C3_counterexample :
    (create_user ⟨"u1", "Ann", "ann@x", 500, 1, "neutral", 0⟩
        ⟨[], [], []⟩).1.users
      = [⟨"u1", "Ann", "ann@x", 500, 1, "neutral", 0⟩] ∧
    ¬ UserInv ⟨"u1", "Ann", "ann@x", 500, 1, "neutral", 0⟩ :=
  ⟨rfl, by decide⟩

/-- C3 (amended): `complete_task` always re-establishes
`level == max(1, floor(xp / 100))` for the user it touches, so if every
stored user satisfies the invariant beforehand, every stored user satisfies
it after any `complete_task`; `create_user` stores the posted xp and level
unchanged, so it preserves the invariant exactly when the posted record
already satisfies it (as the model defaults `xp = 0, level = 1` do). -/
theorem C3_level_invariant (key : Option String) (res : Except Unit String)
    (now : Nat) (sid tid : String) (db : DB) (nu : User)
    (hdb : ∀ u ∈ db.users, UserInv u) :
    (∀ u ∈ (complete_task key res now sid tid db).2.users, UserInv u) ∧
    (UserInv nu → ∀ u ∈ (create_user nu db).1.users, UserInv u) := by
  constructor
  · rcases complete_task_users_shape key res now sid tid db with
      hs | ⟨uid, X, M, hs⟩
    · rw [hs]
      exact hdb
    · rw [hs]
      intro u hu
      rcases mem_updateOne _ _ db.users u hu with h1 | ⟨b, _, rfl⟩
      · exact hdb u h1
      · rfl
  · intro hnu u hu
    simp only [create_user, List.mem_append, List.mem_singleton] at hu
    rcases hu with h1 | rfl
    · exact hdb u h1
    · exact hnu

/-- Witness for C3: in the concrete single-user scenario the touched user
ends at `xp = 60, level = 1`, which satisfies the invariant. -/
theorem C3_level_invariant_witness :
    UserInv ⟨"u1", "Ann", "ann@x", 60, 1, "happy", 0⟩ :=
  (C3_level_invariant none (Except.error ()) 1 "s1" "t1"
      ⟨[⟨"u1", "Ann", "ann@x", 50, 1, "neutral", 0⟩],
       [⟨"t1", "u1", "Run", none, false, 10, 0, none⟩], []⟩
      ⟨"u2", "Bob", "bob@x", 0, 1, "neutral", 0⟩ (by decide)).1
    ⟨"u1", "Ann", "ann@x", 60, 1, "happy", 0⟩ (by decide)

/-- C4: a successful completion returns
`newXp = user.xp + task.xpReward`,
`newLevel = max(1, floor(newXp / 100))`,
`levelUp = (newLevel > user.level)`, `xpGained = task.xpReward`,
mood `"excited"`/animation `"celebrate"` on a level-up and
mood `"happy"`/animation `"happy_bounce"` otherwise (the animation is the
one written to the appended avatar-state record). -/
theorem C4_success_result (key : Option String) (res : Except Unit String)
    (now : Nat) (sid tid : String) (db : DB) (task : Task) (user : User)
    (h : db.tasks.find? (fun t => t.id == tid) = some task)
    (hc : task.completed = false)
    (hu : db.users.find? (fun u => u.id == task.user_id) = some user) :
    ∃ r, (complete_task key res now sid tid db).1 = .ok r ∧
      r.xp_gained = task.xp_reward ∧
      r.new_xp = user.xp + task.xp_reward ∧
      r.new_level = max 1 (Int.fdiv (user.xp + task.xp_reward) 100) ∧
      r.level_up = decide (user.level <
        max 1 (Int.fdiv (user.xp + task.xp_reward) 100)) ∧
      r.avatar_mood = (if user.level <
          max 1 (Int.fdiv (user.xp + task.xp_reward) 100)
        then "excited" else "happy") ∧
      (complete_task key res now sid tid db).2.avatar_states
        = db.avatar_states ++
          [{ id := sid, user_id := task.user_id, mood := r.avatar_mood,
             animation := if user.level <
                 max 1 (Int.fdiv (user.xp + task.xp_reward) 100)
               then "celebrate" else "happy_bounce",
             message := some r.ai_message, timestamp := now }] := by
  rw [complete_task_ok key res now sid tid db task user h hc hu]
  exact ⟨_, rfl, rfl, rfl, rfl, rfl, rfl, rfl⟩

/-- Witness for C4, the spec's Scenario 1: user `{xp:190, level:1}` and task
`{xpReward:15}` yield `{xpGained:15, newXp:205, newLevel:2, levelUp:true,
avatarMood:"excited"}` and a `"celebrate"` avatar-state record. -/
theorem C4_success_result_witness :
    ∃ r, (complete_task none (Except.error ()) 7 "s1" "t1"
        ⟨[⟨"u1", "Ann", "ann@x", 190, 1, "neutral", 0⟩],
         [⟨"t1", "u1", "Ship", none, false, 15, 0, none⟩], []⟩).1 = .ok r ∧
      r.xp_gained = 15 ∧ r.new_xp = 205 ∧ r.new_level = 2 ∧
      r.level_up = true ∧ r.avatar_mood = "excited" ∧
      (complete_task none (Except.error ()) 7 "s1" "t1"
        ⟨[⟨"u1", "Ann", "ann@x", 190, 1, "neutral", 0⟩],
         [⟨"t1", "u1", "Ship", none, false, 15, 0, none⟩], []⟩).2.avatar_states
        = [{ id := "s1", user_id := "u1", mood := r.avatar_mood,
             animation := "celebrate", message := some r.ai_message,
             timestamp := 7 }] :=
  C4_success_result none (Except.error ()) 7 "s1" "t1"
    ⟨[⟨"u1", "Ann", "ann@x", 190, 1, "neutral", 0⟩],
     [⟨"t1", "u1", "Ship", none, false, 15, 0, none⟩], []⟩
    ⟨"t1", "u1", "Ship", none, false, 15, 0, none⟩
    ⟨"u1", "Ann", "ann@x", 190, 1, "neutral", 0⟩ rfl rfl rfl

/-- C5, counterexample: with no API credential configured, a successful
completion returns the static fallback
"Great job completing that task! Keep up the excellent work!", which does
not contain the completed task's title (here "Washcar") — the claim that
the fallback contains the title is false. -/
theorem C5_counterexample :
    ((complete_task none (Except.error ()) 3 "s1" "t1"
        ⟨[⟨"u1", "Ann", "ann@x", 0, 1, "neutral", 0⟩],
         [⟨"t1", "u1", "Washcar", none, false, 10, 0, none⟩],
         []⟩).1.toOption.map
      (fun r => (r.ai_message, decide (containsStr r.ai_message "Washcar"))))
    = some ("Great job completing that task! Keep up the excellent work!",
        false) := by
  decide

/-- C5 (amended): if no API credential is configured, `complete_task` on an
existing, not-yet-completed task still succeeds and its `ai_message` is the
non-empty static fallback
"Great job completing that task! Keep up the excellent work!" — a string
that does not mention the task's title. -/
theorem C5_no_key_static_fallback (res : Except Unit String) (now : Nat)
    (sid tid : String) (db : DB) (task : Task) (user : User)
    (h : db.tasks.find? (fun t => t.id == tid) = some task)
    (hc : task.completed = false)
    (hu : db.users.find? (fun u => u.id == task.user_id) = some user) :
    ∃ r, (complete_task none res now sid tid db).1 = .ok r ∧
      r.ai_message
        = "Great job completing that task! Keep up the excellent work!" ∧
      r.ai_message ≠ "" := by
  rw [complete_task_ok none res now sid tid db task user h hc hu]
  have hne : ("Great job completing that task! Keep up the excellent work!"
      : String) ≠ "" := by decide
  exact ⟨_, rfl, rfl, hne⟩

/-- Witness for C5 on a concrete store with no credential configured. -/
theorem C5_no_key_static_fallback_witness :
    ∃ r, (complete_task none (Except.error ()) 3 "s1" "t1"
        ⟨[⟨"u1", "Ann", "ann@x", 0, 1, "neutral", 0⟩],
         [⟨"t1", "u1", "Stretch", none, false, 10, 0, none⟩], []⟩).1
      = .ok r ∧
      r.ai_message
        = "Great job completing that task! Keep up the excellent work!" ∧
      r.ai_message ≠ "" :=
  C5_no_key_static_fallback (Except.error ()) 3 "s1" "t1"
    ⟨[⟨"u1", "Ann", "ann@x", 0, 1, "neutral", 0⟩],
     [⟨"t1", "u1", "Stretch", none, false, 10, 0, none⟩], []⟩
    ⟨"t1", "u1", "Stretch", none, false, 10, 0, none⟩
    ⟨"u1", "Ann", "ann@x", 0, 1, "neutral", 0⟩ rfl rfl rfl

/-- C6, counterexample: `complete_task` computes `level_up` against the
*stored* `user.level`, not against `level(oldXp)`.  For a stored user
`{xp:190, level:2}` and a 15-XP task the code returns `level_up = false`,
although `level(205) = 2 > level(190) = 1` — the claim is false for user
records whose stored level disagrees with the derived one. -/
theorem C6_counterexample :
    ((complete_task none (Except.error ()) 3 "s1" "t1"
        ⟨[⟨"u1", "Ann", "ann@x", 190, 2, "neutral", 0⟩],
         [⟨"t1", "u1", "Ship", none, false, 15, 0, none⟩],
         []⟩).1.toOption.map CompletionResult.level_up) = some false ∧
    max 1 (Int.fdiv (190 + 15) 100) > max 1 (Int.fdiv 190 100) := by
  decide

/-- C6 (amended): on every successful completion,
`level_up = (newLevel > user.level)` where `user.level` is the stored
level; this coincides with `level(newXp) > level(oldXp)` exactly when the
stored record satisfies the level invariant
`level == max(1, floor(xp / 100))`. -/
theorem C6_levelup_vs_stored_level (key : Option String)
    (res : Except Unit String) (now : Nat) (sid tid : String) (db : DB)
    (task : Task) (user : User)
    (h : db.tasks.find? (fun t => t.id == tid) = some task)
    (hc : task.completed = false)
    (hu : db.users.find? (fun u => u.id == task.user_id) = some user) :
    ∃ r, (complete_task key res now sid tid db).1 = .ok r ∧
      r.level_up = decide (user.level <
        max 1 (Int.fdiv (user.xp + task.xp_reward) 100)) ∧
      (UserInv user →
        r.level_up = decide (max 1 (Int.fdiv user.xp 100) <
          max 1 (Int.fdiv (user.xp + task.xp_reward) 100))) := by
  rw [complete_task_ok key res now sid tid db task user h hc hu]
  refine ⟨_, rfl, rfl, fun hinv => ?_⟩
  rw [show user.level = max 1 (Int.fdiv user.xp 100) from hinv]

/-- Witness for C6 with an invariant-respecting user `{xp:190, level:1}`:
the completion reports a level-up. -/
theorem C6_levelup_witness :
    ∃ r, (complete_task none (Except.error ()) 3 "s1" "t1"
        ⟨[⟨"u1", "Ann", "ann@x", 190, 1, "neutral", 0⟩],
         [⟨"t1", "u1", "Ship", none, false, 15, 0, none⟩], []⟩).1
      = .ok r ∧ r.level_up = true := by
  obtain ⟨r, h1, h2, _⟩ := C6_levelup_vs_stored_level none (Except.error ())
    3 "s1" "t1"
    ⟨[⟨"u1", "Ann", "ann@x", 190, 1, "neutral", 0⟩],
     [⟨"t1", "u1", "Ship", none, false, 15, 0, none⟩], []⟩
    ⟨"t1", "u1", "Ship", none, false, 15, 0, none⟩
    ⟨"u1", "Ann", "ann@x", 190, 1, "neutral", 0⟩ rfl rfl rfl
  exact ⟨r, h1, h2.trans (by decide)⟩

/-- C7: the coaching-message component is a total function (it can raise
nothing), and whenever a credential is configured and the external
generation call fails — the model collapses timeout, network error,
authentication error, malformed response and every other exception into
`Except.error ()` — it returns the deterministic templated fallback, which
contains the task title and the new level. -/
theorem C7_coach_error_fallback (k : String) (name title : String)
    (level xp : Int) (hk : (k == "") = false) :
    get_ai_coaching_message (some k) (Except.error ()) name title level xp
      = "Amazing work on " ++ apos ++ title ++ apos ++ "! You" ++ apos ++
        "re crushing it at level " ++ toString level ++ "! 🎉" ∧
    containsStr
      (get_ai_coaching_message (some k) (Except.error ()) name title level xp)
      title ∧
    containsStr
      (get_ai_coaching_message (some k) (Except.error ()) name title level xp)
      (toString level) := by
  have hmsg : get_ai_coaching_message (some k) (Except.error ())
      name title level xp
      = "Amazing work on " ++ apos ++ title ++ apos ++ "! You" ++ apos ++
        "re crushing it at level " ++ toString level ++ "! 🎉" := by
    simp [get_ai_coaching_message, hk]
  refine ⟨hmsg, ?_, ?_⟩
  · rw [hmsg]
    refine ⟨("Amazing work on " ++ apos).toList,
      (apos ++ "! You" ++ apos ++ "re crushing it at level " ++
        toString level ++ "! 🎉").toList, ?_⟩
    simp [String.toList]
  · rw [hmsg]
    refine ⟨("Amazing work on " ++ apos ++ title ++ apos ++ "! You" ++
        apos ++ "re crushing it at level ").toList, ("! 🎉").toList, ?_⟩
    simp [String.toList]

/-- Witness for C7 at a concrete key, title and level. -/
theorem C7_coach_error_fallback_witness :
    get_ai_coaching_message (some "sk-1") (Except.error ())
        "Ann" "Ship" 2 15
      = "Amazing work on " ++ apos ++ "Ship" ++ apos ++ "! You" ++ apos ++
        "re crushing it at level " ++ toString (2 : Int) ++ "! 🎉" ∧
    containsStr (get_ai_coaching_message (some "sk-1") (Except.error ())
      "Ann" "Ship" 2 15) "Ship" ∧
    containsStr (get_ai_coaching_message (some "sk-1") (Except.error ())
      "Ann" "Ship" 2 15) (toString (2 : Int)) :=
  C7_coach_error_fallback "sk-1" "Ann" "Ship" 2 15 rfl

/-- C8: `get_avatar_state` is a pure read (it takes the store and returns
only a view, no updated store).  It fails with `NotFound` when the user
does not exist, and for an existing user with no avatar-state records it
returns mood `user.avatar_mood`, animation `"idle"`, a greeting containing
`user.name`, and the user's current xp and level. -/
theorem C8_avatar_state_default (uid : String) (db : DB) (u : User) :
    (db.users.find? (fun x => x.id == uid) = none →
      get_avatar_state uid db = .error ()) ∧
    (db.users.find? (fun x => x.id == uid) = some u →
      db.avatar_states.filter (fun s => s.user_id == uid) = [] →
      get_avatar_state uid db
        = .ok { mood := u.avatar_mood, animation := "idle",
                message := some ("Hey " ++ u.name ++ "! I" ++ apos ++
                  "m ready to celebrate your productivity! 🎯"),
                xp := u.xp, level := u.level } ∧
      containsStr ("Hey " ++ u.name ++ "! I" ++ apos ++
        "m ready to celebrate your productivity! 🎯") u.name) := by
  constructor
  · intro h
    simp [get_avatar_state, h]
  · intro h hf
    refine ⟨by simp [get_avatar_state, h, hf, latestState], ?_⟩
    refine ⟨"Hey ".toList, ("! I" ++ apos ++
      "m ready to celebrate your productivity! 🎯").toList, ?_⟩
    simp [String.toList]

/-- Witness for C8: a missing user yields `NotFound`; an existing user
with an empty avatar-state log yields the synthesized idle view. -/
theorem C8_avatar_state_default_witness :
    get_avatar_state "zz"
        ⟨[⟨"u1", "Ann", "ann@x", 50, 1, "happy", 0⟩], [], []⟩
      = .error () ∧
    get_avatar_state "u1"
        ⟨[⟨"u1", "Ann", "ann@x", 50, 1, "happy", 0⟩], [], []⟩
      = .ok ⟨"happy", "idle", some ("Hey Ann! I" ++ apos ++
          "m ready to celebrate your productivity! 🎯"), 50, 1⟩ :=
  ⟨(C8_avatar_state_default "zz"
      ⟨[⟨"u1", "Ann", "ann@x", 50, 1, "happy", 0⟩], [], []⟩
      ⟨"u1", "Ann", "ann@x", 50, 1, "happy", 0⟩).1 rfl,
   ((C8_avatar_state_default "u1"
      ⟨[⟨"u1", "Ann", "ann@x", 50, 1, "happy", 0⟩], [], []⟩
      ⟨"u1", "Ann", "ann@x", 50, 1, "happy", 0⟩).2 rfl rfl).1⟩

/-- C9, counterexample: `create_task` performs no validation of
`xp_reward`, so a posted `xp_reward = 0` is stored as is — the stored task
does not have a positive reward, refuting the "positive integer" half of
the claim. -/
theorem C9_counterexample :
    (create_task ⟨"Stretch", none, 0⟩ "u1" "t1" 0
        ⟨[], [], []⟩).1.tasks.map Task.xp_reward = [0] ∧
    ((create_task ⟨"Stretch", none, 0⟩ "u1" "t1" 0
        ⟨[], [], []⟩).1.tasks.all (fun t => decide (t.xp_reward > 0)))
      = false :=
  ⟨rfl, by decide⟩

/-- C9 (amended): `xp_reward` is stored exactly as posted (default 10, any
integer, no positivity check) and is immutable afterwards: `complete_task`
preserves every task's id and `xp_reward`, `create_task` only appends a
task carrying the posted reward, and `delete_task` only removes tasks,
leaving every surviving task record intact. -/
theorem C9_xp_reward_immutable (key : Option String)
    (res : Except Unit String) (now : Nat) (sid tid : String) (db : DB)
    (tc : TaskCreate) (uid fid : String) (now2 : Nat) (tid2 : String) :
    (complete_task key res now sid tid db).2.tasks.map
        (fun t => (t.id, t.xp_reward))
      = db.tasks.map (fun t => (t.id, t.xp_reward)) ∧
    (create_task tc uid fid now2 db).1.tasks.map Task.xp_reward
      = db.tasks.map Task.xp_reward ++ [tc.xp_reward] ∧
    ∀ t ∈ (delete_task tid2 db).2.tasks, t ∈ db.tasks := by
  refine ⟨?_, by simp [create_task], ?_⟩
  · rcases complete_task_tasks_shape key res now sid tid db with hs | hs
    · rw [hs]
    · rw [hs]
      exact updateOne_map (fun t => t.id == tid)
        (fun t => { t with completed := true, completed_at := some now })
        (fun t => (t.id, t.xp_reward)) (fun a => rfl) db.tasks
  · intro t ht
    unfold delete_task at ht
    by_cases hany : db.tasks.any (fun t => t.id == tid2) = true
    · rw [if_pos hany] at ht
      exact deleteOne_subset (fun t => t.id == tid2) db.tasks t ht
    · rw [if_neg hany] at ht
      exact ht

/-- Witness for C9: a task surviving a deletion is one of the originally
stored task records, unchanged. -/
theorem C9_xp_reward_immutable_witness :
    (⟨"t2", "u1", "B", none, false, 5, 0, none⟩ : Task) ∈
      (⟨[], [⟨"t1", "u1", "A", none, false, 10, 0, none⟩,
             ⟨"t2", "u1", "B", none, false, 5, 0, none⟩], []⟩ : DB).tasks :=
  (C9_xp_reward_immutable none (Except.error ()) 1 "s1" "t1"
      ⟨[], [⟨"t1", "u1", "A", none, false, 10, 0, none⟩,
            ⟨"t2", "u1", "B", none, false, 5, 0, none⟩], []⟩
      ⟨"C", none, 10⟩ "u1" "t3" 2 "t1").2.2
    ⟨"t2", "u1", "B", none, false, 5, 0, none⟩ (by decide)

/-- C10: for an existing user owning the avatar-state record with the
strictly greatest timestamp among their records, `get_avatar_state`
returns that record's mood, animation and message, while xp and level are
read from the current user record at call time. -/
theorem C10_latest_state_view (uid : String) (db : DB) (u : User)
    (s : AvatarState)
    (hu : db.users.find? (fun x => x.id == uid) = some u)
    (hs : s ∈ db.avatar_states.filter (fun x => x.user_id == uid))
    (hmax : ∀ t ∈ db.avatar_states.filter (fun x => x.user_id == uid),
      t ≠ s → t.timestamp < s.timestamp) :
    get_avatar_state uid db
      = .ok { mood := s.mood, animation := s.animation,
              message := s.message, xp := u.xp, level := u.level } := by
  have hl := latestState_eq_of_strictmax hs hmax
  simp [get_avatar_state, hu, hl]

/-- Witness for C10: of two records with timestamps 1 and 2, the view shows
the fields of the later one, with xp and level from the user record. -/
theorem C10_latest_state_view_witness :
    get_avatar_state "u1"
        ⟨[⟨"u1", "Ann", "ann@x", 150, 1, "neutral", 0⟩], [],
         [⟨"a1", "u1", "happy", "happy_bounce", some "m1", 1⟩,
          ⟨"a2", "u1", "excited", "celebrate", some "m2", 2⟩]⟩
      = .ok ⟨"excited", "celebrate", some "m2", 150, 1⟩ :=
  C10_latest_state_view "u1"
    ⟨[⟨"u1", "Ann", "ann@x", 150, 1, "neutral", 0⟩], [],
     [⟨"a1", "u1", "happy", "happy_bounce", some "m1", 1⟩,
      ⟨"a2", "u1", "excited", "celebrate", some "m2", 2⟩]⟩
    ⟨"u1", "Ann", "ann@x", 150, 1, "neutral", 0⟩
    ⟨"a2", "u1", "excited", "celebrate", some "m2", 2⟩
    rfl (by decide) (by decide)

end Avtariclife
